import Mathlib

/-!
Shallow embedding of the circle-warriors battle core (Economy, Rng,
Warrior, Physics.integrateMotion, Combat classification / collision
processing / damage application) with numbers modelled as rationals and
32-bit JS integer operations modelled as naturals modulo 2^32.
Square roots and trigonometric functions from the source are passed as
explicit function parameters so that every definition stays executable.
-/

namespace CW

/-! Constants from Economy.ts -/

def BET_AMOUNT : ℚ := 10
def BOOSTER_COST : ℚ := 1
def WEAPON_REWARD : ℚ := 1
def DAMAGE_PENALTY : ℚ := 4/5
def WIN_MULTIPLIER : ℚ := 3/2
def WIN_BONUS_NET : ℚ := BET_AMOUNT * (1/2)

/-! Constants from Warrior.ts and Combat.ts -/

def WARRIOR_RADIUS : ℚ := 22
def WEAPON_RADIUS : ℚ := 8
def WEAPON_OFFSET : ℚ := (4/5) * WARRIOR_RADIUS
def COOLDOWN_MS : ℚ := 120

/-- Exact rational value of the IEEE-754 double `Math.PI`. -/
def jsPI : ℚ := 884279719003555 / 281474976710656

/-- Math.round semantics of JavaScript: round half toward positive infinity. -/
def jsRound (q : ℚ) : ℚ := ((⌊q + 1/2⌋ : ℤ) : ℚ)

/-! Warrior entity (Warrior.ts) -/

inductive BoosterEffect where
  | none
  | glove
  | shield
deriving DecidableEq, Repr

structure Warrior where
  id : Nat
  isPlayer : Bool
  px : ℚ
  py : ℚ
  vx : ℚ
  vy : ℚ
  speed : ℚ
  hp : ℚ
  alive : Bool
  dying : Bool
  rotationRad : ℚ
  weaponX : ℚ
  weaponY : ℚ
  boosterEffect : BoosterEffect
  alpha : ℚ
deriving DecidableEq, Repr

/-- Warrior constructor: fresh combatant from a config, as in `new Warrior(cfg)`. -/
def mkWarrior (id : Nat) (isPlayer : Bool) (px py vx vy speed : ℚ) : Warrior :=
  { id := id, isPlayer := isPlayer, px := px, py := py, vx := vx, vy := vy
    speed := speed, hp := 100, alive := true, dying := false
    rotationRad := (id : ℚ) * (jsPI * 2 / 4)
    weaponX := 0, weaponY := 0, boosterEffect := BoosterEffect.none, alpha := 1 }

/-- Warrior.updateWeaponPos, with cosine and sine supplied as explicit functions. -/
def updateWeaponPos (cosf sinf : ℚ → ℚ) (w : Warrior) : Warrior :=
  { w with weaponX := w.px + cosf w.rotationRad * WEAPON_OFFSET
           weaponY := w.py + sinf w.rotationRad * WEAPON_OFFSET }

/-- Warrior.takeDamage. -/
def takeDamage (w : Warrior) (amount : ℚ) : Warrior :=
  if w.alive = false ∨ w.dying = true then w
  else
    let hp1 := w.hp - amount
    if hp1 ≤ 0 then { w with hp := 0, dying := true }
    else { w with hp := hp1 }

/-- Warrior.healHP. -/
def healHP (w : Warrior) (amount : ℚ) : Warrior :=
  { w with hp := min 100 (w.hp + amount) }

/-! Physics.ts -/

/-- Euclidean distance squared helper (Physics.distSq). -/
def distSq (ax ay bx by' : ℚ) : ℚ :=
  (ax - bx) * (ax - bx) + (ay - by') * (ay - by')

/-- Physics.integrateMotion: move all warriors by velocity (the loop skips a
warrior only when `!w.alive`; the `dying` flag is not consulted). -/
def integrateMotion (cosf sinf : ℚ → ℚ) (warriors : List Warrior) (dt : ℚ) :
    List Warrior :=
  warriors.map fun w =>
    if w.alive = false then w
    else updateWeaponPos cosf sinf { w with px := w.px + w.vx * dt, py := w.py + w.vy * dt }

/-! Outcome controller (OutcomeController.ts) -/

structure OutcomeParams where
  playerWeaponAssist : ℚ
  playerDealBonusDamage : ℚ
  playerTakeDamageDelta : ℚ
  playerSpeedMul : ℚ
  targetWin : Bool
deriving DecidableEq, Repr

def WIN_PARAMS : OutcomeParams :=
  { playerWeaponAssist := 1/20, playerDealBonusDamage := 1
    playerTakeDamageDelta := -1, playerSpeedMul := 51/50, targetWin := true }

def LOSE_PARAMS : OutcomeParams :=
  { playerWeaponAssist := -7/100, playerDealBonusDamage := -1
    playerTakeDamageDelta := 2, playerSpeedMul := 49/50, targetWin := false }

def NEUTRAL_PARAMS : OutcomeParams :=
  { playerWeaponAssist := 0, playerDealBonusDamage := 0
    playerTakeDamageDelta := 0, playerSpeedMul := 1, targetWin := false }

/-! Economy.ts -/

structure Economy where
  balance : ℚ
  roundProfit : ℚ
  finalProfit : ℚ
deriving DecidableEq, Repr

def Economy.canAffordRound (e : Economy) (hasBooster : Bool) : Bool :=
  decide (BET_AMOUNT + (if hasBooster then BOOSTER_COST else 0) ≤ e.balance)

def Economy.startRound (e : Economy) (hasBooster : Bool) : Economy :=
  { balance := e.balance - (BET_AMOUNT + (if hasBooster then BOOSTER_COST else 0))
    roundProfit := 0, finalProfit := 0 }

/-! Combat.ts: collision types and damage events -/

inductive CollisionType where
  | weapon_body
  | body_body
  | weapon_weapon
  | none
deriving DecidableEq, Repr

structure DamageEvent where
  attacker : Warrior
  victim : Warrior
  type : CollisionType
  damage : ℚ
deriving DecidableEq, Repr

def Economy.processDamageEvent (e : Economy) (ev : DamageEvent) : Economy :=
  let e1 :=
    if ev.attacker.isPlayer = true ∧ ev.type = CollisionType.weapon_body then
      { e with roundProfit := e.roundProfit + WEAPON_REWARD }
    else e
  if ev.victim.isPlayer = true then
    { e1 with roundProfit := e1.roundProfit - DAMAGE_PENALTY }
  else e1

def Economy.finaliseRound (e : Economy) (win : Bool) : Economy :=
  let profitPart :=
    if win = true ∧ e.roundProfit > 0 then e.roundProfit * WIN_MULTIPLIER
    else e.roundProfit
  let fp := if win then profitPart + WIN_BONUS_NET else profitPart
  let bal := e.balance + fp
  { e with finalProfit := fp, balance := if bal < 0 then 0 else bal }

/-- Economy-relevant part of Game.startRound (Ui.ts): the guard
`if (!this.economy.canAffordRound(hasBooster)) return;` runs before
`this.economy.startRound(hasBooster)`, so an unaffordable round leaves the
ledger untouched. -/
def gameStartRound (e : Economy) (hasBooster : Bool) : Economy :=
  if e.canAffordRound hasBooster then e.startRound hasBooster else e

/-! Rng.ts: Mulberry32, on naturals modulo 2^32 (bit-exact model of the
JS `>>> 0` / `Math.imul` pipeline). -/

def U32 : Nat := 4294967296

/-- Rng constructor with an explicit seed: `seed >>> 0`. -/
def mkRng (seed : Nat) : Nat := seed % U32

/-- State update of Rng.next: `this.state = (this.state + 0x6d2b79f5) >>> 0`. -/
def rngStep (s : Nat) : Nat := (s + 0x6d2b79f5) % U32

/-- Math.imul modelled on unsigned 32-bit values. -/
def imul32 (x y : Nat) : Nat := (x * y) % U32

/-- Output scrambling of Rng.next applied to the already-updated state. -/
def rngOut (s1 : Nat) : Nat :=
  let t1 := imul32 (s1 ^^^ (s1 >>> 15)) (s1 ||| 1)
  let t2 := (t1 + imul32 (t1 ^^^ (t1 >>> 7)) (t1 ||| 61)) % U32
  t2 ^^^ (t2 >>> 14)

/-- Value returned by one call of Rng.next from pre-call state `s`. -/
def nextVal (s : Nat) : ℚ := (rngOut (rngStep s) : ℚ) / (U32 : ℚ)

/-- State of a Rng seeded with `seed` after `n` calls to next. -/
def rngStateAfter (seed n : Nat) : Nat := rngStep^[n] (mkRng seed)

/-- The n-th value (0-based) produced by next() on a Rng seeded with `seed`. -/
def rngNthVal (seed n : Nat) : ℚ := nextVal (rngStateAfter seed n)

/-- The n-th value produced by int(min, max). -/
def rngNthInt (seed n : Nat) (mn mx : ℚ) : ℚ :=
  ((⌊rngNthVal seed n * (mx - mn + 1)⌋ : ℤ) : ℚ) + mn

/-- The n-th value produced by float(min, max). -/
def rngNthFloat (seed n : Nat) (mn mx : ℚ) : ℚ :=
  rngNthVal seed n * (mx - mn) + mn

/-- The n-th value produced by angle(). -/
def rngNthAngle (seed n : Nat) : ℚ :=
  rngNthVal seed n * jsPI * 2

/-! Combat.ts: classification and collision processing.  The square root is
passed as an explicit function `sqrtf`; the one rng draw a classification can
make is passed as the value `rngv` that draw would return. -/

structure ClassifyResult where
  type : CollisionType
  attackerIsA : Bool
deriving DecidableEq, Repr

/-- Intermediate best-candidate state of the classification scan. -/
structure ClassState where
  best : CollisionType
  bestOverlap : ℚ
  attackerIsA : Bool
deriving DecidableEq, Repr

/-- Core of Combat.classifyCollision, given the three already-computed
candidate overlaps.  `bestOverlap` starts at 0 so body_body is the default
when no weapon circle actually overlaps the opposite body or weapon. -/
def classifyFromOverlaps (aIsPlayer bIsPlayer : Bool) (params : OutcomeParams)
    (rngv : ℚ) (oA oB oW : ℚ) : ClassifyResult :=
  let s0 : ClassState := ⟨CollisionType.body_body, 0, true⟩
  let s1 : ClassState :=
    if oA > s0.bestOverlap then ⟨CollisionType.weapon_body, oA, true⟩ else s0
  let s2 : ClassState :=
    if oB > s1.bestOverlap then ⟨CollisionType.weapon_body, oB, false⟩ else s1
  let s3 : ClassState :=
    if oW > s2.bestOverlap then ⟨CollisionType.weapon_weapon, s2.bestOverlap, true⟩ else s2
  let involvePlayer := aIsPlayer || bIsPlayer
  if involvePlayer = true ∧ s3.best ≠ CollisionType.weapon_weapon then
    if rngv < |params.playerWeaponAssist| then
      if params.playerWeaponAssist > 0 then
        if aIsPlayer = true ∧ oA > 0 then ⟨CollisionType.weapon_body, true⟩
        else if bIsPlayer = true ∧ oB > 0 then ⟨CollisionType.weapon_body, false⟩
        else ⟨s3.best, s3.attackerIsA⟩
      else ⟨CollisionType.body_body, true⟩
    else ⟨s3.best, s3.attackerIsA⟩
  else ⟨s3.best, s3.attackerIsA⟩

/-- Combat.classifyCollision: compute the three candidate overlaps
`(sum of radii) - (center distance)` and classify. -/
def classifyCollision (sqrtf : ℚ → ℚ) (a b : Warrior) (params : OutcomeParams)
    (rngv : ℚ) : ClassifyResult :=
  classifyFromOverlaps a.isPlayer b.isPlayer params rngv
    ((WEAPON_RADIUS + WARRIOR_RADIUS) - sqrtf (distSq a.weaponX a.weaponY b.px b.py))
    ((WEAPON_RADIUS + WARRIOR_RADIUS) - sqrtf (distSq b.weaponX b.weaponY a.px a.py))
    ((WEAPON_RADIUS + WEAPON_RADIUS) - sqrtf (distSq a.weaponX a.weaponY b.weaponX b.weaponY))

/-- Module-level pair cooldown table, modelled as a total map defaulting to 0
(`pairCooldowns.get(key) ?? 0`). -/
abbrev CooldownMap : Type := Nat × Nat → ℚ

/-- Combat.pairKey: unordered id pair. -/
def pairKey (a b : Warrior) : Nat × Nat := (min a.id b.id, max a.id b.id)

/-- Combat.clearCooldowns. -/
def clearCooldowns : CooldownMap := fun _ => 0

/-- Combat.processCollision: cooldown check, timestamp record, classification
and damage-event generation.  Returns the events together with the updated
cooldown table. -/
def processCollision (sqrtf : ℚ → ℚ) (a b : Warrior) (now : ℚ)
    (params : OutcomeParams) (rngv : ℚ) (cd : CooldownMap) :
    List DamageEvent × CooldownMap :=
  let key := pairKey a b
  let last := cd key
  if now - last < COOLDOWN_MS then ([], cd)
  else
    let cd1 : CooldownMap := Function.update cd key now
    let r := classifyCollision sqrtf a b params rngv
    match r.type with
    | CollisionType.none => ([], cd1)
    | CollisionType.weapon_weapon => ([], cd1)
    | CollisionType.weapon_body =>
        let attacker := if r.attackerIsA then a else b
        let victim := if r.attackerIsA then b else a
        let dmg0 :=
          max 1 (min 40 (25 + params.playerDealBonusDamage *
            (if attacker.isPlayer then 1 else 0)))
        let dmg :=
          if victim.isPlayer then max 1 (dmg0 + params.playerTakeDamageDelta)
          else dmg0
        ([⟨attacker, victim, CollisionType.weapon_body, dmg⟩], cd1)
    | CollisionType.body_body =>
        let dmg := jsRound (max 1 (min 25 (10 + params.playerTakeDamageDelta * (1/2))))
        ([⟨a, b, CollisionType.body_body, dmg⟩,
          ⟨b, a, CollisionType.body_body, dmg⟩], cd1)

/-- World of live warrior objects, indexed by id (JS object references are
rendered as lookups of the current value at the referenced id). -/
abbrev WorldState : Type := Nat → Warrior

/-- One iteration of the applyDamageEvents loop: booster handling for a single
event, returning the new world and the applied event, if any. -/
def applyStep (st : WorldState) (ev : DamageEvent) : WorldState × Option DamageEvent :=
  let victim := st ev.victim.id
  if victim.isPlayer = true ∧ victim.boosterEffect = BoosterEffect.shield then
    (Function.update st ev.victim.id { victim with boosterEffect := BoosterEffect.none },
     Option.none)
  else
    let attacker := st ev.attacker.id
    let useGlove := attacker.isPlayer = true ∧
      attacker.boosterEffect = BoosterEffect.glove ∧ ev.type = CollisionType.weapon_body
    let dmg := if useGlove then ev.damage + 10 else ev.damage
    let st1 :=
      if useGlove then
        Function.update st ev.attacker.id { attacker with boosterEffect := BoosterEffect.none }
      else st
    let victim1 := st1 ev.victim.id
    (Function.update st1 ev.victim.id (takeDamage victim1 dmg),
     Option.some { ev with damage := dmg })

/-- Combat.applyDamageEvents: fold applyStep over the event list, collecting
the applied events in order. -/
def applyDamageEvents (st : WorldState) : List DamageEvent → WorldState × List DamageEvent
  | [] => (st, [])
  | ev :: rest =>
      let r := applyStep st ev
      let tailRes := applyDamageEvents r.1 rest
      match r.2 with
      | Option.none => tailRes
      | Option.some e => (tailRes.1, e :: tailRes.2)

/-! Call traces of processCollision, for the temporal cooldown claims. -/

structure Call where
  aW : Warrior
  bW : Warrior
  now : ℚ
  params : OutcomeParams
  rngv : ℚ

def callKey (c : Call) : Nat × Nat := pairKey c.aW c.bW

/-- Run a sequence of processCollision calls, threading the cooldown table,
and collect each call's event list. -/
def runCalls (sqrtf : ℚ → ℚ) : CooldownMap → List Call → List (List DamageEvent)
  | _, [] => []
  | cd, c :: cs =>
      let r := processCollision sqrtf c.aW c.bW c.now c.params c.rngv cd
      r.1 :: runCalls sqrtf r.2 cs

end CW

namespace CW

theorem rngOut_lt_U32 (x : Nat) : rngOut x < U32 := by
  have hU : U32 = 2 ^ 32 := by norm_num [U32]
  unfold rngOut
  set t1 := imul32 (x ^^^ (x >>> 15)) (x ||| 1) with ht1
  set t2 := (t1 + imul32 (t1 ^^^ (t1 >>> 7)) (t1 ||| 61)) % U32 with ht2
  have h2 : t2 < U32 := Nat.mod_lt _ (by norm_num [U32])
  have h3 : t2 >>> 14 < U32 :=
    lt_of_le_of_lt (by rw [Nat.shiftRight_eq_div_pow]; exact Nat.div_le_self _ _) h2
  rw [hU] at h2 h3 ⊢
  exact Nat.xor_lt_two_pow h2 h3

/-- C2: two Rng instances with the same 32-bit seed produce identical n-th
values for next, int, float and angle, and next always lies in [0, 1). -/
theorem rng_same_seed_deterministic_and_in_unit (s1 s2 : Nat) (h : s1 = s2)
    (n : Nat) (mn mx : ℚ) :
    (rngNthVal s1 n = rngNthVal s2 n ∧
     rngNthInt s1 n mn mx = rngNthInt s2 n mn mx ∧
     rngNthFloat s1 n mn mx = rngNthFloat s2 n mn mx ∧
     rngNthAngle s1 n = rngNthAngle s2 n) ∧
    0 ≤ rngNthVal s1 n ∧ rngNthVal s1 n < 1 := by
  subst h
  refine ⟨⟨rfl, rfl, rfl, rfl⟩, ?_, ?_⟩
  · unfold rngNthVal nextVal
    exact div_nonneg (Nat.cast_nonneg _) (Nat.cast_nonneg _)
  · unfold rngNthVal nextVal
    rw [div_lt_one (by norm_num [U32] : (0:ℚ) < (U32:ℚ))]
    exact_mod_cast rngOut_lt_U32 _

theorem rng_same_seed_witness : (42 : Nat) = 42 ∧ 0 ≤ rngNthVal 42 0 ∧ rngNthVal 42 0 < 1 :=
  ⟨rfl, (rng_same_seed_deterministic_and_in_unit 42 42 rfl 0 0 1).2⟩

/-! C1 -/

def c1Bot : Warrior := mkWarrior 1 false 0 0 0 0 120
def c1Player : Warrior := mkWarrior 0 true 0 0 0 0 120

/-- Damage event in which the player is the victim of a body-body contact. -/
def c1Ev : DamageEvent := ⟨c1Bot, c1Player, CollisionType.body_body, 10⟩

/-- Economy state after starting a round with a fresh balance of 1000 and
processing seven damage events whose victim is the player. -/
def c1Econ : Economy :=
  (List.replicate 7 c1Ev).foldl Economy.processDamageEvent ((Economy.mk 1000 0 0).startRound false)

/-- C1: finaliseRound(true) does NOT always yield a positive finalProfit:
after seven player-victim damage events (roundProfit = -28/5, reachable well
before the player dies) a win produces finalProfit = -3/5 < 0, contradicting
the source comment that the win bonus guarantees a positive final profit. -/
theorem finaliseRound_win_nonpositive_profit :
    c1Econ.roundProfit = -28/5 ∧
    (c1Econ.finaliseRound true).finalProfit = -3/5 ∧
    (c1Econ.finaliseRound true).finalProfit < 0 := by
  have hrp : c1Econ.roundProfit = -28/5 := by
    simp only [c1Econ, c1Ev, c1Bot, c1Player, mkWarrior, Economy.startRound,
      Economy.processDamageEvent, List.replicate, List.foldl,
      BET_AMOUNT, BOOSTER_COST, WEAPON_REWARD, DAMAGE_PENALTY]
    norm_num
  have hfp : (c1Econ.finaliseRound true).finalProfit = -3/5 := by
    simp only [Economy.finaliseRound, hrp, WIN_MULTIPLIER, WIN_BONUS_NET, BET_AMOUNT]
    norm_num
  exact ⟨hrp, hfp, by rw [hfp]; norm_num⟩

/-! C8 -/

/-- C8: when the balance cannot cover stake plus optional side bet, starting a
round leaves the whole economy state unchanged (no partial deduction). -/
theorem game_startRound_insufficient_is_noop (e : Economy) (hb : Bool)
    (h : e.canAffordRound hb = false) : gameStartRound e hb = e := by
  simp [gameStartRound, h]

theorem game_startRound_insufficient_witness :
    gameStartRound ⟨5, 0, 0⟩ false = ⟨5, 0, 0⟩ :=
  game_startRound_insufficient_is_noop ⟨5, 0, 0⟩ false (by
    simp only [Economy.canAffordRound, BET_AMOUNT, BOOSTER_COST]
    norm_num)

/-! C9 -/

def c9Dying : Warrior := { mkWarrior 0 false 0 0 1 0 120 with dying := true }

/-- C9 counterexample: a combatant that is alive but dying IS moved by
integrateMotion (the code only checks `alive`), refuting the claim that
dying combatants stay unchanged. -/
theorem integrateMotion_moves_dying_warrior :
    c9Dying.alive = true ∧ c9Dying.dying = true ∧ c9Dying.px = 0 ∧
    (integrateMotion (fun _ => 1) (fun _ => 0) [c9Dying] 1).map Warrior.px = [1] := by
  refine ⟨rfl, rfl, rfl, ?_⟩
  simp only [integrateMotion, updateWeaponPos, c9Dying, mkWarrior, List.map]
  norm_num

/-- C9 (amended): integrateMotion advances position by velocity times dt and
refreshes the weapon position for every combatant that is alive — including
dying ones — and leaves exactly the non-alive combatants unchanged. -/
theorem integrateMotion_alive_only (cosf sinf : ℚ → ℚ) (ws : List Warrior)
    (dt : ℚ) (i : Nat) (w : Warrior) (hw : ws[i]? = some w) :
    (w.alive = false → (integrateMotion cosf sinf ws dt)[i]? = some w) ∧
    (w.alive = true → (integrateMotion cosf sinf ws dt)[i]? =
      some (updateWeaponPos cosf sinf
        { w with px := w.px + w.vx * dt, py := w.py + w.vy * dt })) := by
  constructor <;> intro h <;>
    simp [integrateMotion, List.getElem?_map, hw, h]

def c9Alive : Warrior := mkWarrior 1 false 2 3 1 1 120

theorem integrateMotion_alive_only_witness :
    (integrateMotion (fun _ => 1) (fun _ => 0) [c9Alive] 1)[0]? =
      some (updateWeaponPos (fun _ => 1) (fun _ => 0)
        { c9Alive with px := c9Alive.px + c9Alive.vx * 1, py := c9Alive.py + c9Alive.vy * 1 }) :=
  (integrateMotion_alive_only (fun _ => 1) (fun _ => 0) [c9Alive] 1 0 c9Alive rfl).2 rfl

end CW

namespace CW

/-! Helper reduction lemmas for processCollision -/

theorem processCollision_blocked (sqrtf : ℚ → ℚ) (a b : Warrior) (now : ℚ)
    (params : OutcomeParams) (rngv : ℚ) (cd : CooldownMap)
    (h : now - cd (pairKey a b) < COOLDOWN_MS) :
    processCollision sqrtf a b now params rngv cd = ([], cd) := by
  simp only [processCollision, if_pos h]

theorem processCollision_snd_of_pass (sqrtf : ℚ → ℚ) (a b : Warrior) (now : ℚ)
    (params : OutcomeParams) (rngv : ℚ) (cd : CooldownMap)
    (h : ¬(now - cd (pairKey a b) < COOLDOWN_MS)) :
    (processCollision sqrtf a b now params rngv cd).2 =
      Function.update cd (pairKey a b) now := by
  simp only [processCollision, if_neg h]
  split <;> rfl

/-! C3 -/

def c3A : Warrior := { mkWarrior 2 false 0 0 0 0 120 with weaponX := -100, weaponY := 0 }
def c3B : Warrior := { mkWarrior 3 false 10 0 0 0 120 with weaponX := 110, weaponY := 0 }

/-- Square-root table for the c3 geometry (exact on the needed distances). -/
def c3Sqrt (q : ℚ) : ℚ := if q = 12100 then 110 else if q = 44100 then 210 else 0

/-- C3 counterexample: in a body-to-body contact of two NON-player combatants
under the lose-biased parameters (playerTakeDamageDelta = 2), both events carry
damage 11 = round(10 + 2·0.5): the delta is applied even though neither victim
is the player, refuting the claim that an event whose victim is not the player
gets the unadjusted base 10. -/
theorem body_body_delta_hits_nonplayer_victims :
    c3A.isPlayer = false ∧ c3B.isPlayer = false ∧
    (processCollision c3Sqrt c3A c3B 200 LOSE_PARAMS 1 clearCooldowns).1 =
      [⟨c3A, c3B, CollisionType.body_body, 11⟩, ⟨c3B, c3A, CollisionType.body_body, 11⟩] := by
  refine ⟨rfl, rfl, ?_⟩
  have hcl : classifyCollision c3Sqrt c3A c3B LOSE_PARAMS 1 =
      ⟨CollisionType.body_body, true⟩ := by
    simp only [classifyCollision, classifyFromOverlaps, c3A, c3B, c3Sqrt, mkWarrior,
      distSq, LOSE_PARAMS, WEAPON_RADIUS, WARRIOR_RADIUS]
    norm_num
  have hjr : jsRound (max 1 (min 25 (10 + LOSE_PARAMS.playerTakeDamageDelta * (1/2)))) = 11 := by
    simp only [jsRound, LOSE_PARAMS]
    norm_num
  have hcool : ¬((200 : ℚ) - clearCooldowns (pairKey c3A c3B) < COOLDOWN_MS) := by
    norm_num [clearCooldowns, COOLDOWN_MS]
  simp only [processCollision, if_neg hcool, hcl, hjr]

/-- C3 (amended): a pair classified body-to-body yields exactly two symmetric
events, BOTH carrying the same damage round(clamp(10 + delta·0.5, 1, 25)) — the
player-take-damage delta is applied to both events no matter which (if either)
victim is the player. -/
theorem processCollision_body_body_symmetric (sqrtf : ℚ → ℚ) (a b : Warrior)
    (now : ℚ) (params : OutcomeParams) (rngv : ℚ) (cd : CooldownMap)
    (hcool : ¬(now - cd (pairKey a b) < COOLDOWN_MS))
    (hcl : (classifyCollision sqrtf a b params rngv).type = CollisionType.body_body) :
    (processCollision sqrtf a b now params rngv cd).1 =
      [⟨a, b, CollisionType.body_body,
         jsRound (max 1 (min 25 (10 + params.playerTakeDamageDelta * (1/2))))⟩,
       ⟨b, a, CollisionType.body_body,
         jsRound (max 1 (min 25 (10 + params.playerTakeDamageDelta * (1/2))))⟩] := by
  simp only [processCollision, if_neg hcool, hcl]

theorem processCollision_body_body_symmetric_witness :
    (processCollision c3Sqrt c3A c3B 200 LOSE_PARAMS 1 clearCooldowns).1 =
      [⟨c3A, c3B, CollisionType.body_body,
         jsRound (max 1 (min 25 (10 + LOSE_PARAMS.playerTakeDamageDelta * (1/2))))⟩,
       ⟨c3B, c3A, CollisionType.body_body,
         jsRound (max 1 (min 25 (10 + LOSE_PARAMS.playerTakeDamageDelta * (1/2))))⟩] :=
  processCollision_body_body_symmetric c3Sqrt c3A c3B 200 LOSE_PARAMS 1 clearCooldowns
    (by norm_num [clearCooldowns, COOLDOWN_MS])
    (by
      simp only [classifyCollision, classifyFromOverlaps, c3A, c3B, c3Sqrt, mkWarrior,
        distSq, LOSE_PARAMS, WEAPON_RADIUS, WARRIOR_RADIUS]
      norm_num)

/-! C6 -/

def c6A : Warrior := { mkWarrior 0 true 0 0 0 0 120 with weaponX := 25, weaponY := 0 }
def c6B : Warrior := { mkWarrior 1 false 50 0 0 0 120 with weaponX := 200, weaponY := 0 }

/-- Square-root table for the c6 geometry. -/
def c6Sqrt (q : ℚ) : ℚ :=
  if q = 625 then 25 else if q = 40000 then 200 else if q = 30625 then 175 else 0

/-- C6 counterexample: with only the weapon-of-A-vs-body-of-B overlap positive
(5 > 0, others negative), A the player, lose-biased parameters
(playerWeaponAssist = -0.07) and an RNG draw of 0 < 0.07, the classifier
returns body_body, not weapon_body with A as attacker. -/
theorem classify_nudge_overrides_weapon_hit :
    0 < (WEAPON_RADIUS + WARRIOR_RADIUS) - c6Sqrt (distSq c6A.weaponX c6A.weaponY c6B.px c6B.py) ∧
    (WEAPON_RADIUS + WARRIOR_RADIUS) - c6Sqrt (distSq c6B.weaponX c6B.weaponY c6A.px c6A.py) ≤ 0 ∧
    (WEAPON_RADIUS + WEAPON_RADIUS) - c6Sqrt (distSq c6A.weaponX c6A.weaponY c6B.weaponX c6B.weaponY) ≤ 0 ∧
    classifyCollision c6Sqrt c6A c6B LOSE_PARAMS 0 = ⟨CollisionType.body_body, true⟩ := by
  refine ⟨?_, ?_, ?_, ?_⟩
  · norm_num [c6Sqrt, distSq, c6A, c6B, mkWarrior, WEAPON_RADIUS, WARRIOR_RADIUS]
  · norm_num [c6Sqrt, distSq, c6A, c6B, mkWarrior, WEAPON_RADIUS, WARRIOR_RADIUS]
  · norm_num [c6Sqrt, distSq, c6A, c6B, mkWarrior, WEAPON_RADIUS, WARRIOR_RADIUS]
  · simp only [classifyCollision, classifyFromOverlaps, c6A, c6B, c6Sqrt, mkWarrior,
      distSq, LOSE_PARAMS, WEAPON_RADIUS, WARRIOR_RADIUS]
    norm_num
    exact fun h => absurd h (by decide)

/-- Helper: the overlap-level core of the C6 statement. -/
theorem classifyFromOverlaps_only_oA (pA pB : Bool) (params : OutcomeParams)
    (rngv oA oB oW : ℚ) (hA : 0 < oA) (hB : oB ≤ 0) (hW : oW ≤ 0)
    (hnudge : ¬((pA = true ∨ pB = true) ∧
      rngv < |params.playerWeaponAssist| ∧ params.playerWeaponAssist ≤ 0)) :
    classifyFromOverlaps pA pB params rngv oA oB oW =
      ⟨CollisionType.weapon_body, true⟩ := by
  simp only [classifyFromOverlaps]
  split_ifs <;>
    first
      | rfl
      | (exfalso; linarith)
      | (exfalso
         rename_i hc hr has
         push_neg at hnudge
         exact absurd (hnudge (by simpa using hc.1) hr) has)

/-- C6 (amended): when only the weapon-of-A-vs-body-of-B overlap is strictly
positive and the other two overlaps are nonpositive, the classifier returns
weapon_body with A as attacker — unless the pair involves the player, the
weapon-assist parameter is nonpositive and the RNG draw falls below its
absolute value, in which case the nudge forces body_body instead. -/
theorem classify_only_wa_positive (sqrtf : ℚ → ℚ) (a b : Warrior)
    (params : OutcomeParams) (rngv : ℚ)
    (hA : 0 < (WEAPON_RADIUS + WARRIOR_RADIUS) - sqrtf (distSq a.weaponX a.weaponY b.px b.py))
    (hB : (WEAPON_RADIUS + WARRIOR_RADIUS) - sqrtf (distSq b.weaponX b.weaponY a.px a.py) ≤ 0)
    (hW : (WEAPON_RADIUS + WEAPON_RADIUS) - sqrtf (distSq a.weaponX a.weaponY b.weaponX b.weaponY) ≤ 0)
    (hnudge : ¬((a.isPlayer = true ∨ b.isPlayer = true) ∧
      rngv < |params.playerWeaponAssist| ∧ params.playerWeaponAssist ≤ 0)) :
    classifyCollision sqrtf a b params rngv = ⟨CollisionType.weapon_body, true⟩ := by
  unfold classifyCollision
  exact classifyFromOverlaps_only_oA a.isPlayer b.isPlayer params rngv _ _ _ hA hB hW hnudge

def c6C : Warrior := { mkWarrior 4 false 0 0 0 0 120 with weaponX := 25, weaponY := 0 }
def c6D : Warrior := { mkWarrior 5 false 50 0 0 0 120 with weaponX := 200, weaponY := 0 }

theorem classify_only_wa_positive_witness :
    classifyCollision c6Sqrt c6C c6D NEUTRAL_PARAMS 0 =
      ⟨CollisionType.weapon_body, true⟩ :=
  classify_only_wa_positive c6Sqrt c6C c6D NEUTRAL_PARAMS 0
    (by norm_num [c6Sqrt, distSq, c6C, c6D, mkWarrior, WEAPON_RADIUS, WARRIOR_RADIUS])
    (by norm_num [c6Sqrt, distSq, c6C, c6D, mkWarrior, WEAPON_RADIUS, WARRIOR_RADIUS])
    (by norm_num [c6Sqrt, distSq, c6C, c6D, mkWarrior, WEAPON_RADIUS, WARRIOR_RADIUS])
    (by simp [c6C, c6D, mkWarrior])

end CW

namespace CW

/-! C5 -/

theorem jsRound_bounds {z : ℚ} (h1 : 1 ≤ z) (h2 : z ≤ 25) :
    1 ≤ jsRound z ∧ jsRound z ≤ 25 := by
  unfold jsRound
  constructor
  · have : (1 : ℤ) ≤ ⌊z + 1/2⌋ := by
      rw [Int.le_floor]
      push_cast
      linarith
    exact_mod_cast this
  · have : ⌊z + 1/2⌋ < (26 : ℤ) := by
      rw [Int.floor_lt]
      push_cast
      linarith
    have h26 : ⌊z + 1/2⌋ ≤ (25 : ℤ) := by omega
    exact_mod_cast h26

theorem processCollision_no_events_of_ww (sqrtf : ℚ → ℚ) (a b : Warrior)
    (now : ℚ) (params : OutcomeParams) (rngv : ℚ) (cd : CooldownMap) (isA : Bool)
    (hcl : classifyCollision sqrtf a b params rngv = ⟨CollisionType.weapon_weapon, isA⟩) :
    (processCollision sqrtf a b now params rngv cd).1 = [] := by
  by_cases h : now - cd (pairKey a b) < COOLDOWN_MS
  · simp [processCollision_blocked _ _ _ _ _ _ _ h]
  · simp only [processCollision, if_neg h, hcl]

theorem processCollision_weapon_body_event (sqrtf : ℚ → ℚ) (a b : Warrior)
    (now : ℚ) (params : OutcomeParams) (rngv : ℚ) (cd : CooldownMap) (isA : Bool)
    (h : ¬(now - cd (pairKey a b) < COOLDOWN_MS))
    (hcl : classifyCollision sqrtf a b params rngv = ⟨CollisionType.weapon_body, isA⟩) :
    (processCollision sqrtf a b now params rngv cd).1 =
      [⟨if isA then a else b, if isA then b else a, CollisionType.weapon_body,
        if (if isA then b else a).isPlayer then
          max 1 ((max 1 (min 40 (25 + params.playerDealBonusDamage *
            (if (if isA then a else b).isPlayer then 1 else 0)))) + params.playerTakeDamageDelta)
        else
          max 1 (min 40 (25 + params.playerDealBonusDamage *
            (if (if isA then a else b).isPlayer then 1 else 0)))⟩] := by
  simp only [processCollision, if_neg h, hcl]

/-- C5: every weapon_body event generated under one of the controller's three
parameter presets has damage in [1, 40], and every body_body event has damage
in [1, 25]. -/
theorem damage_bounds (sqrtf : ℚ → ℚ) (a b : Warrior) (now : ℚ)
    (params : OutcomeParams) (rngv : ℚ) (cd : CooldownMap)
    (hp : params = WIN_PARAMS ∨ params = LOSE_PARAMS ∨ params = NEUTRAL_PARAMS) :
    ∀ ev ∈ (processCollision sqrtf a b now params rngv cd).1,
      (ev.type = CollisionType.weapon_body → 1 ≤ ev.damage ∧ ev.damage ≤ 40) ∧
      (ev.type = CollisionType.body_body → 1 ≤ ev.damage ∧ ev.damage ≤ 25) := by
  intro ev hev
  by_cases hcool : now - cd (pairKey a b) < COOLDOWN_MS
  · rw [processCollision_blocked _ _ _ _ _ _ _ hcool] at hev
    simp at hev
  · rcases hres : classifyCollision sqrtf a b params rngv with ⟨ty, isA⟩
    cases ty with
    | none =>
        simp only [processCollision, if_neg hcool, hres] at hev
        simp at hev
    | weapon_weapon =>
        rw [processCollision_no_events_of_ww _ _ _ _ _ _ _ _ hres] at hev
        simp at hev
    | weapon_body =>
        rw [processCollision_weapon_body_event _ _ _ _ _ _ _ _ hcool hres] at hev
        rw [List.mem_singleton] at hev
        subst hev
        refine ⟨fun _ => ?_, fun hbb => by simp at hbb⟩
        rcases hp with h | h | h <;> subst h <;>
          simp only [WIN_PARAMS, LOSE_PARAMS, NEUTRAL_PARAMS] <;>
          split_ifs <;> norm_num
    | body_body =>
        simp only [processCollision, if_neg hcool, hres] at hev
        have hbnd :
            1 ≤ jsRound (max 1 (min 25 (10 + params.playerTakeDamageDelta * (1/2)))) ∧
            jsRound (max 1 (min 25 (10 + params.playerTakeDamageDelta * (1/2)))) ≤ 25 :=
          jsRound_bounds (le_max_left _ _)
            (max_le (by norm_num) (min_le_left _ _))
        simp only [List.mem_cons, List.not_mem_nil, or_false] at hev
        rcases hev with hev | hev <;> subst hev <;>
          exact ⟨fun hwb => by simp at hwb, fun _ => hbnd⟩

def c5Ev : DamageEvent :=
  ⟨c3A, c3B, CollisionType.body_body,
   jsRound (max 1 (min 25 (10 + LOSE_PARAMS.playerTakeDamageDelta * (1/2))))⟩

theorem c5Ev_mem :
    c5Ev ∈ (processCollision c3Sqrt c3A c3B 200 LOSE_PARAMS 1 clearCooldowns).1 := by
  have hcl : classifyCollision c3Sqrt c3A c3B LOSE_PARAMS 1 =
      ⟨CollisionType.body_body, true⟩ := by
    simp only [classifyCollision, classifyFromOverlaps, c3A, c3B, c3Sqrt, mkWarrior,
      distSq, LOSE_PARAMS, WEAPON_RADIUS, WARRIOR_RADIUS]
    norm_num
  have hcool : ¬((200 : ℚ) - clearCooldowns (pairKey c3A c3B) < COOLDOWN_MS) := by
    norm_num [clearCooldowns, COOLDOWN_MS]
  simp only [processCollision, if_neg hcool, hcl, c5Ev]
  simp

theorem damage_bounds_witness :
    1 ≤ c5Ev.damage ∧ c5Ev.damage ≤ 25 :=
  (damage_bounds c3Sqrt c3A c3B 200 LOSE_PARAMS 1 clearCooldowns
    (Or.inr (Or.inl rfl)) c5Ev c5Ev_mem).2 rfl

end CW

namespace CW

/-! C7 -/

/-- C7: an active shield on the player victim fully negates one event (health
unchanged, event dropped) and disarms the shield; an active glove on the
player attacker adds exactly +10 to one weapon-hit event and disarms the
glove; healHP never raises health above 100. -/
theorem booster_semantics_shield_glove_heal (st : WorldState) (ev : DamageEvent)
    (evs : List DamageEvent) (w : Warrior) (amt : ℚ) :
    (((st ev.victim.id).isPlayer = true ∧
        (st ev.victim.id).boosterEffect = BoosterEffect.shield) →
      ((applyStep st ev).1 ev.victim.id).hp = (st ev.victim.id).hp ∧
      ((applyStep st ev).1 ev.victim.id).boosterEffect = BoosterEffect.none ∧
      (applyStep st ev).2 = Option.none ∧
      applyDamageEvents st (ev :: evs) = applyDamageEvents (applyStep st ev).1 evs) ∧
    ((¬((st ev.victim.id).isPlayer = true ∧
        (st ev.victim.id).boosterEffect = BoosterEffect.shield)) →
      ((st ev.attacker.id).isPlayer = true ∧
       (st ev.attacker.id).boosterEffect = BoosterEffect.glove ∧
       ev.type = CollisionType.weapon_body) →
      ev.attacker.id ≠ ev.victim.id →
      (applyStep st ev).2 = Option.some { ev with damage := ev.damage + 10 } ∧
      ((applyStep st ev).1 ev.attacker.id).boosterEffect = BoosterEffect.none) ∧
    (healHP w amt).hp ≤ 100 := by
  refine ⟨?_, ?_, ?_⟩
  · intro hs
    have h1 : ((applyStep st ev).1 ev.victim.id).hp = (st ev.victim.id).hp := by
      simp only [applyStep, if_pos hs, Function.update_same]
    have h2 : ((applyStep st ev).1 ev.victim.id).boosterEffect = BoosterEffect.none := by
      simp only [applyStep, if_pos hs, Function.update_same]
    have h3 : (applyStep st ev).2 = Option.none := by
      simp only [applyStep, if_pos hs]
    refine ⟨h1, h2, h3, ?_⟩
    simp only [applyDamageEvents, h3]
  · intro hns hg hne
    constructor
    · simp only [applyStep, if_neg hns, if_pos hg]
    · simp only [applyStep, if_neg hns, if_pos hg]
      rw [Function.update_noteq hne, Function.update_same]
  · exact min_le_left _ _

def wShield : Warrior := { mkWarrior 0 true 0 0 0 0 120 with boosterEffect := BoosterEffect.shield }
def wGlove : Warrior := { mkWarrior 0 true 0 0 0 0 120 with boosterEffect := BoosterEffect.glove }
def wBot : Warrior := mkWarrior 1 false 0 0 0 0 120
def stShield : WorldState := fun i => if i = 0 then wShield else wBot
def stGlove : WorldState := fun i => if i = 0 then wGlove else wBot
def evToPlayer : DamageEvent := ⟨wBot, wShield, CollisionType.weapon_body, 25⟩
def evFromPlayer : DamageEvent := ⟨wGlove, wBot, CollisionType.weapon_body, 25⟩

theorem booster_semantics_witness :
    (((applyStep stShield evToPlayer).1 evToPlayer.victim.id).hp =
        (stShield evToPlayer.victim.id).hp ∧
      ((applyStep stShield evToPlayer).1 evToPlayer.victim.id).boosterEffect =
        BoosterEffect.none ∧
      (applyStep stShield evToPlayer).2 = Option.none ∧
      applyDamageEvents stShield (evToPlayer :: []) =
        applyDamageEvents (applyStep stShield evToPlayer).1 []) ∧
    ((applyStep stGlove evFromPlayer).2 =
        Option.some { evFromPlayer with damage := evFromPlayer.damage + 10 } ∧
      ((applyStep stGlove evFromPlayer).1 evFromPlayer.attacker.id).boosterEffect =
        BoosterEffect.none) ∧
    (healHP wBot 50).hp ≤ 100 :=
  ⟨(booster_semantics_shield_glove_heal stShield evToPlayer [] wBot 50).1 ⟨rfl, rfl⟩,
   (booster_semantics_shield_glove_heal stGlove evFromPlayer [] wBot 50).2.1
     (by simp [stGlove, evFromPlayer, wBot, wGlove, mkWarrior])
     ⟨rfl, rfl, rfl⟩ (by simp [evFromPlayer, wBot, wGlove, mkWarrior])
     ,
   (booster_semantics_shield_glove_heal stGlove evFromPlayer [] wBot 50).2.2⟩

/-! C10 -/

/-- C10: a call that passes the cooldown check records its timestamp for the
pair BEFORE classification, so even an event-less qualifying contact consumes
the 120 ms window: a second contact of the same pair within 120 ms returns no
events. -/
theorem cooldown_consumed_even_without_events (sqrtf : ℚ → ℚ) (a b : Warrior)
    (t1 t2 : ℚ) (p1 p2 : OutcomeParams) (r1 r2 : ℚ) (cd : CooldownMap)
    (h1 : ¬(t1 - cd (pairKey a b) < COOLDOWN_MS)) (h2 : t2 - t1 < COOLDOWN_MS) :
    (processCollision sqrtf a b t1 p1 r1 cd).2 (pairKey a b) = t1 ∧
    (processCollision sqrtf a b t2 p2 r2
      ((processCollision sqrtf a b t1 p1 r1 cd).2)).1 = [] := by
  have hset := processCollision_snd_of_pass sqrtf a b t1 p1 r1 cd h1
  have hkey : (processCollision sqrtf a b t1 p1 r1 cd).2 (pairKey a b) = t1 := by
    rw [hset]; exact Function.update_same _ _ _
  refine ⟨hkey, ?_⟩
  have hblock : t2 - (processCollision sqrtf a b t1 p1 r1 cd).2 (pairKey a b) <
      COOLDOWN_MS := by
    rw [hkey]; exact h2
  rw [processCollision_blocked _ _ _ _ _ _ _ hblock]

theorem cooldown_consumed_witness :
    (processCollision (fun _ => 0) c3A c3B 200 NEUTRAL_PARAMS 0 clearCooldowns).2
      (pairKey c3A c3B) = 200 ∧
    (processCollision (fun _ => 0) c3A c3B 300 NEUTRAL_PARAMS 0
      ((processCollision (fun _ => 0) c3A c3B 200 NEUTRAL_PARAMS 0 clearCooldowns).2)).1 = [] :=
  cooldown_consumed_even_without_events (fun _ => 0) c3A c3B 200 300
    NEUTRAL_PARAMS NEUTRAL_PARAMS 0 0 clearCooldowns
    (by norm_num [clearCooldowns, COOLDOWN_MS])
    (by norm_num [COOLDOWN_MS])

end CW

namespace CW

/-! C4 -/

theorem processCollision_cd_mono (sqrtf : ℚ → ℚ) (a b : Warrior) (now : ℚ)
    (params : OutcomeParams) (rngv : ℚ) (cd : CooldownMap) (k : Nat × Nat) :
    cd k ≤ (processCollision sqrtf a b now params rngv cd).2 k := by
  by_cases h : now - cd (pairKey a b) < COOLDOWN_MS
  · rw [processCollision_blocked _ _ _ _ _ _ _ h]
  · rw [processCollision_snd_of_pass _ _ _ _ _ _ _ h]
    by_cases hk : k = pairKey a b
    · subst hk
      rw [Function.update_same]
      have hge := not_lt.mp h
      have : (0 : ℚ) < COOLDOWN_MS := by norm_num [COOLDOWN_MS]
      linarith
    · rw [Function.update_noteq hk]

theorem processCollision_nonempty_passed (sqrtf : ℚ → ℚ) (a b : Warrior)
    (now : ℚ) (params : OutcomeParams) (rngv : ℚ) (cd : CooldownMap)
    (hne : (processCollision sqrtf a b now params rngv cd).1 ≠ []) :
    ¬(now - cd (pairKey a b) < COOLDOWN_MS) := by
  intro h
  exact hne (by rw [processCollision_blocked _ _ _ _ _ _ _ h])

theorem runCalls_blocked_of_le (sqrtf : ℚ → ℚ) (k : Nat × Nat) (T : ℚ) :
    ∀ (cs : List Call) (cd : CooldownMap) (j : Nat) (cj : Call)
      (rj : List DamageEvent),
      cs[j]? = some cj → (runCalls sqrtf cd cs)[j]? = some rj →
      callKey cj = k → T ≤ cd k → cj.now - T < COOLDOWN_MS → rj = [] := by
  intro cs
  induction cs with
  | nil =>
      intro cd j cj rj hc
      simp at hc
  | cons c cs ih =>
      intro cd j cj rj hc hr hk hT hdt
      cases j with
      | zero =>
          rw [List.getElem?_cons_zero, Option.some_inj] at hc
          subst hc
          simp only [runCalls, List.getElem?_cons_zero, Option.some_inj] at hr
          subst hr
          have hkey : pairKey c.aW c.bW = k := hk
          have hblock : c.now - cd (pairKey c.aW c.bW) < COOLDOWN_MS := by
            rw [hkey]
            linarith
          rw [processCollision_blocked _ _ _ _ _ _ _ hblock]
      | succ j =>
          rw [List.getElem?_cons_succ] at hc
          simp only [runCalls, List.getElem?_cons_succ] at hr
          exact ih _ j cj rj hc hr hk
            (le_trans hT (processCollision_cd_mono sqrtf c.aW c.bW c.now c.params c.rngv cd k))
            hdt

/-- C4: in any sequence of processCollision calls, two calls on the same
unordered pair whose timestamps differ by less than the 120 ms cooldown yield
at most one non-empty event list. -/
theorem cooldown_at_most_one_nonempty (sqrtf : ℚ → ℚ) :
    ∀ (calls : List Call) (cd : CooldownMap) (i j : Nat) (ci cj : Call)
      (ri rj : List DamageEvent),
      i < j → calls[i]? = some ci → calls[j]? = some cj →
      (runCalls sqrtf cd calls)[i]? = some ri →
      (runCalls sqrtf cd calls)[j]? = some rj →
      callKey ci = callKey cj → |cj.now - ci.now| < COOLDOWN_MS →
      ri = [] ∨ rj = [] := by
  intro calls
  induction calls with
  | nil =>
      intro cd i j ci cj ri rj hij hci
      simp at hci
  | cons c cs ih =>
      intro cd i j ci cj ri rj hij hci hcj hri hrj hkey hdt
      cases i with
      | zero =>
          cases j with
          | zero => exact absurd hij (by omega)
          | succ j =>
              by_cases hre : ri = []
              · exact Or.inl hre
              · refine Or.inr ?_
                rw [List.getElem?_cons_zero, Option.some_inj] at hci
                subst hci
                simp only [runCalls, List.getElem?_cons_zero, Option.some_inj] at hri
                rw [List.getElem?_cons_succ] at hcj
                simp only [runCalls, List.getElem?_cons_succ] at hrj
                have hpass : ¬(c.now - cd (pairKey c.aW c.bW) < COOLDOWN_MS) := by
                  apply processCollision_nonempty_passed sqrtf c.aW c.bW c.now
                    c.params c.rngv cd
                  rw [← hri] at hre
                  exact hre
                have hupd : (processCollision sqrtf c.aW c.bW c.now c.params
                    c.rngv cd).2 (callKey c) = c.now := by
                  rw [processCollision_snd_of_pass _ _ _ _ _ _ _ hpass]
                  exact Function.update_same _ _ _
                refine runCalls_blocked_of_le sqrtf (callKey c) c.now cs _ j cj rj
                  hcj hrj hkey.symm (le_of_eq hupd.symm) ?_
                calc cj.now - c.now ≤ |cj.now - c.now| := le_abs_self _
                  _ < COOLDOWN_MS := hdt
      | succ i =>
          cases j with
          | zero => exact absurd hij (by omega)
          | succ j =>
              rw [List.getElem?_cons_succ] at hci hcj
              simp only [runCalls, List.getElem?_cons_succ] at hri hrj
              exact ih _ i j ci cj ri rj (by omega) hci hcj hri hrj hkey hdt

def c4Call1 : Call := ⟨c3A, c3B, 200, NEUTRAL_PARAMS, 0⟩
def c4Call2 : Call := ⟨c3A, c3B, 250, NEUTRAL_PARAMS, 0⟩

/-- Second call's event list in the two-call witness trace. -/
def c4Res2 : List DamageEvent :=
  (processCollision (fun _ => 0) c3A c3B 250 NEUTRAL_PARAMS 0
    ((processCollision (fun _ => 0) c3A c3B 200 NEUTRAL_PARAMS 0 clearCooldowns).2)).1

theorem cooldown_at_most_one_nonempty_witness :
    (processCollision (fun _ => 0) c3A c3B 200 NEUTRAL_PARAMS 0 clearCooldowns).1 = [] ∨
      c4Res2 = [] :=
  cooldown_at_most_one_nonempty (fun _ => 0) [c4Call1, c4Call2] clearCooldowns
    0 1 c4Call1 c4Call2
    ((processCollision (fun _ => 0) c3A c3B 200 NEUTRAL_PARAMS 0 clearCooldowns).1)
    c4Res2 (by omega) rfl rfl rfl rfl rfl
    (by norm_num [c4Call1, c4Call2, COOLDOWN_MS])

end CW
